import Mathlib

/-!
# Verification of the dual-source user reconciliation service

Shallow embedding of the Rust sources `user.rs`, `user_service.rs`,
`user_client.rs` and `user_controller.rs` of the
`rust-backend-showcase-jsonplaceholder` repository, together with proofs
about the reconciliation (merge), lookup, update-diff, directory-client
and header-check logic.

Effectful calls (MongoDB queries, HTTP requests) are embedded by passing
their outcomes as explicit parameters; a Rust `panic!`/`unwrap()` on `None`
is embedded as the `none` result of an `Option`-valued function.
-/

/-! ## Data model (`user.rs`) -/

/-- `Company` struct of `user.rs` (serde renames `catch_phrase` to
`catchPhrase` on the wire). -/
structure Company where
  name : String
  catch_phrase : String
  bs : String
  deriving DecidableEq, Repr

/-- `Address` struct of `user.rs`. The `geo` field is a string-to-string
map (`HashMap<String, String>`); it is embedded as its canonical (sorted)
association list, which is the form `serde_json` produces when the map is
serialized into a `Value` (a `BTreeMap`-backed object). -/
structure Address where
  street : String
  suite : String
  city : String
  geo : List (String × String)
  deriving DecidableEq, Repr

/-- `User` struct of `user.rs`: the identifier is an optional string. -/
structure User where
  id : Option String
  name : String
  username : String
  email : String
  address : Address
  phone : String
  website : String
  company : Company
  deriving DecidableEq, Repr

/-! ## JSON values (`serde_json::Value`) -/

/-- `serde_json::Value`. Numbers are embedded as integers (the directory's
sample identifiers are integral); that is all the identifier decoder needs
to distinguish. -/
inductive Json where
  | null
  | jbool (b : Bool)
  | num (n : Int)
  | str (s : String)
  | arr (elems : List Json)
  | obj (fields : List (String × Json))
  deriving Repr

/-- Structural equality of `serde_json::Value` (Rust's `PartialEq`),
written as an executable Boolean comparison because the nested inductive
does not admit a derived decidable equality. -/
def Json.beq : Json → Json → Bool
  | .null, .null => true
  | .jbool a, .jbool b => a == b
  | .num a, .num b => a == b
  | .str a, .str b => a == b
  | .arr a, .arr b => beqList a b
  | .obj a, .obj b => beqFields a b
  | _, _ => false
where
  beqList : List Json → List Json → Bool
    | [], [] => true
    | x :: xs, y :: ys => Json.beq x y && beqList xs ys
    | _, _ => false
  beqFields : List (String × Json) → List (String × Json) → Bool
    | [], [] => true
    | (k, v) :: xs, (l, w) :: ys => k == l && Json.beq v w && beqFields xs ys
    | _, _ => false

/-! ## Serialization of `User` to a JSON object
(`serde_json::to_value`). `serde_json`'s object representation is a
`BTreeMap`, so the field lists below are in sorted key order. -/

/-- Serialization of the optional identifier (`Option<String>`):
`None ↦ null`, `Some s ↦ s`. -/
def idToJson : Option String → Json
  | none => Json.null
  | some s => Json.str s

/-- Serialization of the `geo` string map. -/
def geoToJson (geo : List (String × String)) : Json :=
  Json.obj (geo.map fun p => (p.1, Json.str p.2))

/-- Serialization of `Address` (keys in sorted order). -/
def addressToJson (a : Address) : Json :=
  Json.obj
    [("city", Json.str a.city), ("geo", geoToJson a.geo),
     ("street", Json.str a.street), ("suite", Json.str a.suite)]

/-- Serialization of `Company` (keys in sorted order; `catch_phrase` is
renamed to `catchPhrase`). -/
def companyToJson (c : Company) : Json :=
  Json.obj
    [("bs", Json.str c.bs), ("catchPhrase", Json.str c.catch_phrase),
     ("name", Json.str c.name)]

/-- The field map of `serde_json::to_value(user)`, in sorted key order,
as iterated by `updated_json.as_object()` in `generate_update_document`. -/
def userFields (u : User) : List (String × Json) :=
  [("address", addressToJson u.address),
   ("company", companyToJson u.company),
   ("email", Json.str u.email),
   ("id", idToJson u.id),
   ("name", Json.str u.name),
   ("phone", Json.str u.phone),
   ("username", Json.str u.username),
   ("website", Json.str u.website)]

/-! ## BSON documents (`mongodb::bson::Document`) -/

/-- A BSON `Document`: an insertion-ordered key-value sequence. -/
abbrev Document := List (String × Json)

/-- `Document::insert`: replaces the value of an existing key (keeping its
position), otherwise appends the entry at the end. -/
def docInsert (d : Document) (k : String) (v : Json) : Document :=
  if d.any (fun p => p.1 == k) then
    d.map (fun p => if p.1 == k then (k, v) else p)
  else
    d ++ [(k, v)]

/-- `generate_update_document` of `user_service.rs`: serialize both users,
iterate over the updated user's fields, and for every field whose value is
absent from or different in the original, insert
`"$set" ↦ { field: value }` into the update document. Since `insert`
replaces an existing `"$set"` entry, each differing field overwrites the
previous one. -/
def generate_update_document (original_user updated_user : User) : Document :=
  (userFields updated_user).foldl
    (fun update_document fv =>
      match (userFields original_user).lookup fv.1 with
      | some original_value =>
          if Json.beq original_value fv.2 then
            update_document
          else
            docInsert update_document "$set" (Json.obj [fv])
      | none => docInsert update_document "$set" (Json.obj [fv]))
    []

/-! ## Error taxonomies (`user_service.rs`, `user_client.rs`) -/

/-- `DatabaseError` enum of `user_service.rs`. -/
inductive DatabaseError where
  | UserNotFound (id : String)
  | MongoConnectionFailed
  | OperationFailed
  deriving DecidableEq, Repr

/-- `UserClientError` enum of `user_client.rs`. HTTP status codes are
embedded as naturals (200 = OK, 404 = NOT_FOUND, 500 = INTERNAL_SERVER_ERROR). -/
inductive UserClientError where
  | UserNotFound (id : String)
  | RestError (status : Nat)
  | UrlParseError
  | SerdeError
  | NoIdError
  deriving DecidableEq, Repr

/-! ## Identifier decoding (`deserialize_id` in `user.rs`) -/

/-- `deserialize_id` of `user.rs`: the custom serde deserializer for
`User.id`. A JSON number decodes to its decimal string, a JSON string to
itself, `null` to the absent identifier, and every other JSON type is a
decode error. -/
def deserialize_id : Json → Except String (Option String)
  | .num n => .ok (some (toString n))
  | .str s => .ok (some s)
  | .null => .ok none
  | _ => .error "Invalid type"

/-! ## Reconciliation service (`user_service.rs`)

The database and JsonPlaceholder calls are embedded by passing their
outcomes as `Except` parameters. A `none` overall result embeds a Rust
panic (an `unwrap()` of an absent identifier). -/

/-- `get_users` of `user_service.rs`: a failed store fetch degrades to the
empty local list, a failed directory fetch to the empty directory list;
the local identifiers are collected by `user.id.clone().unwrap()` (panic
on an absent id), and each directory user whose (unwrapped) id is not
among the local ids is appended after the local users. -/
def get_users (database_result : Except DatabaseError (List User))
    (jph_result : Except UserClientError (List User)) : Option (List User) :=
  let users : List User :=
    match database_result with
    | .ok users => users
    | _ => []
  match users.mapM (fun user => user.id) with
  | none => none
  | some database_ids =>
    let jph_users : List User :=
      match jph_result with
      | .ok users => users
      | _ => []
    jph_users.foldlM
      (fun users user =>
        match user.id with
        | none => none
        | some uid =>
            some (if database_ids.contains uid then users else users ++ [user]))
      users

/-- `get_user` of `user_service.rs`: return the store's record on store
success; on any store error fall through to JsonPlaceholder, translating a
directory `UserNotFound` into `DatabaseError.UserNotFound id` and any
other directory error into `OperationFailed`. -/
def get_user (id : String) (database_result : Except DatabaseError User)
    (jph_result : Except UserClientError User) : Except DatabaseError User :=
  match database_result with
  | .ok user => .ok user
  | .error _ =>
    match jph_result with
    | .ok user => .ok user
    | .error (.UserNotFound _) => .error (.UserNotFound id)
    | .error _ => .error .OperationFailed

/-! ## Record store layer (`user_service.rs`, `*_with_config` functions)

`get_user_collection` is embedded as an `Except DatabaseError Unit`
parameter (its only observable outcomes are success or a
`MongoConnectionFailed`), and the MongoDB driver calls as outcome
parameters: `find_one` may fail (`Except.error ()`), return no document
(`Except.ok none`) or return a document. -/

/-- `get_user_from_db_with_config` of `user_service.rs`: propagate the
collection error; on a `find_one` driver error OR an empty result, fail
with `UserNotFound(id)`; otherwise return the found user. -/
def get_user_from_db_with_config (id : String)
    (collection_result : Except DatabaseError Unit)
    (find_one_result : Except Unit (Option User)) : Except DatabaseError User :=
  match collection_result with
  | .error e => .error e
  | .ok _ =>
    match find_one_result with
    | .error _ => .error (.UserNotFound id)
    | .ok none => .error (.UserNotFound id)
    | .ok (some user) => .ok user

/-- `update_user_in_db_with_config` of `user_service.rs`: obtain the
collection (propagating its error), unwrap `user.id` (panic — `none` —
when absent), fetch the existing user by that id (propagating its error,
through a second collection acquisition), build the update document with
`generate_update_document`, and report `update_one`'s outcome
(`OperationFailed` on write failure). -/
def update_user_in_db_with_config (user : User)
    (collection_result : Except DatabaseError Unit)
    (inner_collection_result : Except DatabaseError Unit)
    (find_one_result : Except Unit (Option User))
    (update_one_ok : Bool) : Option (Except DatabaseError Unit) :=
  match collection_result with
  | .error e => some (.error e)
  | .ok _ =>
    match user.id with
    | none => none
    | some uid =>
      match get_user_from_db_with_config uid inner_collection_result find_one_result with
      | .error e => some (.error e)
      | .ok existing_user =>
        let _update_document := generate_update_document existing_user user
        if update_one_ok then some (.ok ()) else some (.error .OperationFailed)

/-- `update_user` of `user_service.rs`: delegates directly to
`update_user_in_db_with_config` with the configured connection data. -/
def update_user (user : User)
    (collection_result : Except DatabaseError Unit)
    (inner_collection_result : Except DatabaseError Unit)
    (find_one_result : Except Unit (Option User))
    (update_one_ok : Bool) : Option (Except DatabaseError Unit) :=
  update_user_in_db_with_config user collection_result inner_collection_result
    find_one_result update_one_ok

/-! ## Directory client (`user_client.rs`) -/

/-- Outcome of `reqwest`'s `send()`: either a transport error (carrying an
optional status) or a response with a status code and a body. -/
inductive HttpOutcome where
  | sendError (status : Option Nat)
  | response (status : Nat) (body : String)

/-- `get_user_with_url` of `user_client.rs`: an unparsable URL yields
`UrlParseError` before any request; a transport error yields
`RestError` (status, defaulting to 500); status 200 decodes the body
(`SerdeError` on failure); status 404 yields `UserNotFound(id)`; any other
status yields `RestError(status)`. Body decoding (`serde_json::from_str`)
is embedded as the `decodeUser` parameter. -/
def get_user_with_url (id : String) (url_parse_ok : Bool)
    (outcome : HttpOutcome) (decodeUser : String → Option User) :
    Except UserClientError User :=
  if url_parse_ok = false then .error .UrlParseError
  else
    match outcome with
    | .sendError st => .error (.RestError (st.getD 500))
    | .response status body =>
      if status = 200 then
        match decodeUser body with
        | some user => .ok user
        | none => .error .SerdeError
      else if status = 404 then .error (.UserNotFound id)
      else .error (.RestError status)

/-! ## API-layer header checks (`user_controller.rs`) -/

/-- The state of one request header: absent, present but not convertible
to a string, or present with a string value. -/
inductive HeaderValue where
  | missing
  | notAString
  | value (s : String)

/-- `check_accept_header_json` of `user_controller.rs`: an absent or
non-string `Accept` header is an error; a present string header is an
error exactly when it equals `"application/json"` (the comparison is
inverted in the source), and accepted otherwise. -/
def check_accept_header_json (accept : HeaderValue) : Except Unit Unit :=
  match accept with
  | .missing => .error ()
  | .notAString => .error ()
  | .value header_content =>
      if header_content = "application/json" then .error () else .ok ()

/-- `check_content_type_header_json` of `user_controller.rs`: identical
logic over the `Content-Type` header. -/
def check_content_type_header_json (content_type : HeaderValue) : Except Unit Unit :=
  match content_type with
  | .missing => .error ()
  | .notAString => .error ()
  | .value header_content =>
      if header_content = "application/json" then .error () else .ok ()

/-! ## Test fixture (`User::create_test_user` in `user.rs`) -/

/-- `create_test_user` of `user.rs` (the `geo` map in canonical sorted
order). -/
def create_test_user (id : Option String) : User :=
  { id := id
    name := "TESTER"
    username := "TESTER_69"
    email := "testlover@testing.gov"
    address :=
      { street := "Totallyrealstreet 6"
        suite := "a 12"
        city := "Testington"
        geo := [("lat", "12"), ("lon", "15")] }
    phone := "123456789"
    website := "testing.gov"
    company :=
      { name := "Testing"
        catch_phrase := "Truly we are testing"
        bs := "To test" } }

/-! ## Claim C2: read-one fallback semantics -/

/-- Claim C2: `get_user` returns the store's record on store success
independently of the directory outcome; on any store error it falls
through to the directory, surfacing a directory `UserNotFound` as
`UserNotFound(id)` and any other directory failure as `OperationFailed`;
in particular, absence from both sources yields `UserNotFound(id)`. -/
theorem get_user_fallback_spec (id : String) :
    (∀ (u : User) (jph_result : Except UserClientError User),
      get_user id (.ok u) jph_result = .ok u) ∧
    (∀ (e : DatabaseError) (u : User),
      get_user id (.error e) (.ok u) = .ok u) ∧
    (∀ (e : DatabaseError) (s : String),
      get_user id (.error e) (.error (.UserNotFound s)) =
        .error (.UserNotFound id)) ∧
    (∀ (e : DatabaseError) (je : UserClientError),
      (∀ s, je ≠ .UserNotFound s) →
      get_user id (.error e) (.error je) = .error .OperationFailed) ∧
    (get_user id (.error (.UserNotFound id)) (.error (.UserNotFound id)) =
      .error (.UserNotFound id)) := by
  refine ⟨fun u j => rfl, fun e u => rfl, fun e s => rfl, fun e je h => ?_, rfl⟩
  cases je with
  | UserNotFound s => exact absurd rfl (h s)
  | RestError st => rfl
  | UrlParseError => rfl
  | SerdeError => rfl
  | NoIdError => rfl

/-- Witness for `get_user_fallback_spec` at concrete inputs. -/
theorem get_user_fallback_spec_witness :
    get_user "42" (.error DatabaseError.MongoConnectionFailed)
      (.error UserClientError.SerdeError) =
      .error DatabaseError.OperationFailed :=
  (get_user_fallback_spec "42").2.2.2.1 DatabaseError.MongoConnectionFailed
    UserClientError.SerdeError (by intro s h; cases h)

/-! ## Claim C6: store-level lookup error classification -/

/-- Claim C6, counterexample: a `find_one` driver failure (which is not
the absence of a matching document) is reported as `UserNotFound("42")`,
not as `ConnectionFailed`/`OperationFailed`. -/
theorem get_user_from_db_query_error_counterexample :
    get_user_from_db_with_config "42" (.ok ()) (.error ()) =
      .error (DatabaseError.UserNotFound "42") := rfl

/-- Claim C6 as amended: the store-level lookup returns the user found by
the query, fails with `UserNotFound(id)` both when no document matches and
when the `find_one` query itself fails, and propagates the collection
acquisition error (`MongoConnectionFailed`) otherwise. -/
theorem get_user_from_db_spec (id : String) :
    (∀ u : User,
      get_user_from_db_with_config id (.ok ()) (.ok (some u)) = .ok u) ∧
    (get_user_from_db_with_config id (.ok ()) (.ok none) =
      .error (.UserNotFound id)) ∧
    (get_user_from_db_with_config id (.ok ()) (.error ()) =
      .error (.UserNotFound id)) ∧
    (∀ (e : DatabaseError) (find_one_result : Except Unit (Option User)),
      get_user_from_db_with_config id (.error e) find_one_result = .error e) :=
  ⟨fun _ => rfl, rfl, rfl, fun _ _ => rfl⟩

/-! ## Claim C7: directory-client status mapping -/

/-- Claim C7: the directory client's get-by-id maps an invalid base URL to
`UrlParseError` independently of any request outcome, a 404 response to
`UserNotFound(id)`, any other non-200 status to `RestError(status)`, and a
200 body to the decoded user or `SerdeError` when decoding fails. -/
theorem get_user_with_url_spec (id : String) (decodeUser : String → Option User) :
    (∀ outcome : HttpOutcome,
      get_user_with_url id false outcome decodeUser = .error .UrlParseError) ∧
    (∀ body : String,
      get_user_with_url id true (.response 404 body) decodeUser =
        .error (.UserNotFound id)) ∧
    (∀ (status : Nat) (body : String), status ≠ 200 → status ≠ 404 →
      get_user_with_url id true (.response status body) decodeUser =
        .error (.RestError status)) ∧
    (∀ body : String, decodeUser body = none →
      get_user_with_url id true (.response 200 body) decodeUser =
        .error .SerdeError) ∧
    (∀ (body : String) (u : User), decodeUser body = some u →
      get_user_with_url id true (.response 200 body) decodeUser = .ok u) := by
  refine ⟨fun outcome => rfl, fun body => rfl, fun status body h200 h404 => ?_,
    fun body hdec => ?_, fun body u hdec => ?_⟩
  · simp [get_user_with_url, h200, h404]
  · simp [get_user_with_url, hdec]
  · simp [get_user_with_url, hdec]

/-- Witness for `get_user_with_url_spec` at concrete inputs. -/
theorem get_user_with_url_spec_witness :
    get_user_with_url "42" true (.response 403 "") (fun _ => none) =
      .error (UserClientError.RestError 403) :=
  (get_user_with_url_spec "42" (fun _ => none)).2.2.1 403 ""
    (by decide) (by decide)

/-! ## Claim C8: identifier decoding -/

/-- Claim C8: the identifier deserializer maps JSON `null` to the absent
identifier, a JSON number to its decimal string form, a JSON string to
itself, and every other JSON type (boolean, array, object) to a decode
error. -/
theorem deserialize_id_spec :
    (deserialize_id .null = .ok none) ∧
    (∀ n : Int, deserialize_id (.num n) = .ok (some (toString n))) ∧
    (∀ s : String, deserialize_id (.str s) = .ok (some s)) ∧
    (∀ b : Bool, deserialize_id (.jbool b) = .error "Invalid type") ∧
    (∀ elems : List Json, deserialize_id (.arr elems) = .error "Invalid type") ∧
    (∀ fields : List (String × Json),
      deserialize_id (.obj fields) = .error "Invalid type") :=
  ⟨rfl, fun _ => rfl, fun _ => rfl, fun _ => rfl, fun _ => rfl, fun _ => rfl⟩

/-! ## Claim C9: API-layer header checks -/

/-- Claim C9 at the failing input: both header checks reject
(`Except.error`, rendered as 400) exactly the requests whose header equals
`"application/json"` and accept any other present string value — the
opposite of the claimed behavior. -/
theorem header_checks_reject_application_json :
    check_accept_header_json (.value "application/json") = .error () ∧
    check_content_type_header_json (.value "application/json") = .error () ∧
    check_accept_header_json (.value "text/html") = .ok () ∧
    check_content_type_header_json (.value "text/html") = .ok () ∧
    check_accept_header_json .missing = .error () ∧
    check_content_type_header_json .missing = .error () := by
  refine ⟨?_, ?_, ?_, ?_, rfl, rfl⟩ <;>
    simp [check_accept_header_json, check_content_type_header_json]

/-! ## Claim C4: the diff document keeps only the last changed field -/

/-- Claim C4 at a failing input: changing both `email` and `name` (with
`email` iterated before `name` in the sorted field order) produces an
update document containing only the `name` field — the `"$set"` entry
staged for `email` is overwritten, so the change-set is not the full set
of differing fields. -/
theorem generate_update_document_keeps_last_field_only :
    generate_update_document (create_test_user (some "101"))
      { create_test_user (some "101") with
          name := "NEW NAME", email := "new@testing.gov" } =
      [("$set", Json.obj [("name", Json.str "NEW NAME")])] := rfl

/-! ## Claim C3: update without / with an unknown identifier -/

/-- Claim C3, counterexample: updating the test user without an identifier
does not fail with any error (in particular not with `NoIdError`, which is
not even a `DatabaseError`); after the store collection has been acquired,
the identifier unwrap panics (`none`). -/
theorem update_user_no_id_counterexample :
    update_user (create_test_user none) (.ok ()) (.ok ()) (.ok none) true =
      none := rfl

/-- Claim C3 as amended: `update_user` on a record without an identifier
first performs the store collection call (whose failure it returns) and
then panics on the identifier unwrap instead of failing with `NoIdError`;
on a record whose identifier is present but matches no stored document it
fails with `UserNotFound` (an update never creates a record). -/
theorem update_user_spec (user : User) :
    (user.id = none →
      ∀ (ic : Except DatabaseError Unit) (f : Except Unit (Option User)) (b : Bool),
        update_user user (.ok ()) ic f b = none) ∧
    (∀ (e : DatabaseError) (ic : Except DatabaseError Unit)
        (f : Except Unit (Option User)) (b : Bool),
      update_user user (.error e) ic f b = some (.error e)) ∧
    (∀ uid : String, user.id = some uid → ∀ b : Bool,
      update_user user (.ok ()) (.ok ()) (.ok none) b =
        some (.error (.UserNotFound uid))) := by
  refine ⟨fun h ic f b => ?_, fun e ic f b => rfl, fun uid h b => ?_⟩
  · simp [update_user, update_user_in_db_with_config, h]
  · simp [update_user, update_user_in_db_with_config, get_user_from_db_with_config, h]

/-- Witness for `update_user_spec` at concrete inputs. -/
theorem update_user_spec_witness :
    update_user (create_test_user (some "101")) (.ok ()) (.ok ()) (.ok none) true =
      some (.error (DatabaseError.UserNotFound "101")) :=
  (update_user_spec (create_test_user (some "101"))).2.2 "101" rfl true

/-! ## Claim C5: a name-only change stages exactly the name field

Auxiliary reflexivity facts about `Json.beq` on serialized field values. -/

/-- `Json.beq` is reflexive on serialized strings. -/
theorem json_beq_str_self (s : String) : Json.beq (.str s) (.str s) = true := by
  simp [Json.beq]

/-- `Json.beq.beqFields` is reflexive on serialized string maps. -/
theorem beqFields_str_map_self (l : List (String × String)) :
    Json.beq.beqFields (l.map fun p => (p.1, Json.str p.2))
      (l.map fun p => (p.1, Json.str p.2)) = true := by
  induction l with
  | nil => rfl
  | cons p t ih => simp [Json.beq.beqFields, Json.beq, ih]

/-- `Json.beq` is reflexive on serialized `geo` maps. -/
theorem geoToJson_beq_self (g : List (String × String)) :
    Json.beq (geoToJson g) (geoToJson g) = true := by
  simp [geoToJson, Json.beq, beqFields_str_map_self]

/-- `Json.beq` is reflexive on serialized addresses. -/
theorem addressToJson_beq_self (a : Address) :
    Json.beq (addressToJson a) (addressToJson a) = true := by
  simp [addressToJson, geoToJson, Json.beq, Json.beq.beqFields,
    beqFields_str_map_self]

/-- `Json.beq` is reflexive on serialized companies. -/
theorem companyToJson_beq_self (c : Company) :
    Json.beq (companyToJson c) (companyToJson c) = true := by
  simp [companyToJson, Json.beq, Json.beq.beqFields]

/-- `Json.beq` is reflexive on serialized optional identifiers. -/
theorem idToJson_beq_self (i : Option String) :
    Json.beq (idToJson i) (idToJson i) = true := by
  cases i with
  | none => rfl
  | some s => simp [idToJson, Json.beq]

/-- Claim C5: updating only the `name` field while resending every other
field unchanged produces a change-set containing exactly the `name`
field. -/
theorem generate_update_document_name_only (u : User) (n : String)
    (h : n ≠ u.name) :
    generate_update_document u { u with name := n } =
      [("$set", Json.obj [("name", Json.str n)])] := by
  have hname : Json.beq (Json.str u.name) (Json.str n) = false := by
    simp [Json.beq]
    exact fun hh => h hh.symm
  simp [generate_update_document, userFields, List.lookup, List.foldl,
    addressToJson_beq_self, companyToJson_beq_self, idToJson_beq_self,
    json_beq_str_self, hname, docInsert]

/-- Witness for `generate_update_document_name_only` at concrete inputs. -/
theorem generate_update_document_name_only_witness :
    generate_update_document (create_test_user (some "101"))
      { create_test_user (some "101") with name := "NEW NAME" } =
      [("$set", Json.obj [("name", Json.str "NEW NAME")])] :=
  generate_update_document_name_only (create_test_user (some "101")) "NEW NAME"
    (by decide)

/-! ## Claims C1 and C10: the read-all merge

Auxiliary facts about the identifier collection (`mapM`) and the merge
fold of `get_users`. -/

/-- Collecting the local identifiers panics when some local record has an
absent identifier. -/
theorem mapM_ids_none (L : List User) (h : ∃ u ∈ L, u.id = none) :
    L.mapM (fun user => user.id) = none := by
  induction L with
  | nil => simp at h
  | cons u t ih =>
    obtain ⟨v, hv, hvid⟩ := h
    rcases List.mem_cons.mp hv with rfl | hvt
    · rw [List.mapM_cons, hvid]
      rfl
    · cases hu : u.id with
      | none =>
        rw [List.mapM_cons, hu]
        rfl
      | some a =>
        rw [List.mapM_cons, hu, ih ⟨v, hvt, hvid⟩]
        rfl

/-- When every local record carries an identifier, collecting them
succeeds, and membership in the collected list is membership of some local
record's identifier. -/
theorem mapM_ids_some (L : List User) (hL : ∀ u ∈ L, u.id.isSome) :
    ∃ ids : List String, L.mapM (fun user => user.id) = some ids ∧
      ∀ s : String, (ids.contains s = true ↔ ∃ l ∈ L, l.id = some s) := by
  induction L with
  | nil => exact ⟨[], rfl, by simp⟩
  | cons u t ih =>
    obtain ⟨a, ha⟩ := Option.isSome_iff_exists.mp (hL u (List.mem_cons_self u t))
    obtain ⟨ids, hmap, hcont⟩ := ih (fun v hv => hL v (List.mem_cons_of_mem u hv))
    refine ⟨a :: ids, ?_, fun s => ?_⟩
    · rw [List.mapM_cons, ha, hmap]
      rfl
    · rw [List.contains_cons]
      simp only [Bool.or_eq_true, beq_iff_eq, hcont s]
      constructor
      · rintro (rfl | ⟨l, hl, hls⟩)
        · exact ⟨u, List.mem_cons_self u t, ha⟩
        · exact ⟨l, List.mem_cons_of_mem u hl, hls⟩
      · rintro ⟨l, hl, hls⟩
        rcases List.mem_cons.mp hl with rfl | hlt
        · rw [ha] at hls
          exact Or.inl (Option.some_inj.mp hls).symm
        · exact Or.inr ⟨l, hlt, hls⟩

/-- The merge fold of `get_users`: when every directory record carries an
identifier, the fold appends to the accumulator exactly the directory
records whose identifier is not among `ids`, in order. -/
theorem foldlM_merge (ids : List String) (D : List User) (acc : List User)
    (hD : ∀ u ∈ D, u.id.isSome) :
    (D.foldlM (fun users user =>
        match user.id with
        | none => none
        | some uid =>
            some (if ids.contains uid then users else users ++ [user])) acc)
      = some (acc ++ D.filter fun d =>
          match d.id with
          | none => true
          | some uid => !ids.contains uid) := by
  induction D generalizing acc with
  | nil => simp
  | cons u t ih =>
    obtain ⟨a, ha⟩ := Option.isSome_iff_exists.mp (hD u (List.mem_cons_self u t))
    have ih' := fun acc => ih acc (fun v hv => hD v (List.mem_cons_of_mem u hv))
    by_cases hc : ids.contains a = true
    · simp [List.foldlM_cons, List.filter_cons, ha, hc, ih' acc, -List.elem_eq_mem]
    · simp only [Bool.not_eq_true] at hc
      simp [List.foldlM_cons, List.filter_cons, ha, hc, ih' (acc ++ [u]),
        -List.elem_eq_mem]

/-- The merge fold of `get_users` panics when some directory record has an
absent identifier. -/
theorem foldlM_merge_none (ids : List String) (D : List User) (acc : List User)
    (h : ∃ u ∈ D, u.id = none) :
    (D.foldlM (fun users user =>
        match user.id with
        | none => none
        | some uid =>
            some (if ids.contains uid then users else users ++ [user])) acc)
      = none := by
  induction D generalizing acc with
  | nil => simp at h
  | cons u t ih =>
    obtain ⟨v, hv, hvid⟩ := h
    rcases List.mem_cons.mp hv with rfl | hvt
    · simp [List.foldlM_cons, hvid, -List.elem_eq_mem]
    · cases hu : u.id with
      | none => simp [List.foldlM_cons, hu, -List.elem_eq_mem]
      | some a =>
        have ih' := fun acc => ih acc ⟨v, hvt, hvid⟩
        simp [List.foldlM_cons, hu, ih', -List.elem_eq_mem]

/-- Claim C1: with both sources successful and every record carrying an
identifier, the merged listing is exactly the local records in store
order followed by the directory records whose identifier no local record
carries, in directory order; hence its length is `|L|` plus the number of
directory-only records, and no identifier occurs both in the local-origin
and the directory-origin portion (no fields are merged across sources —
each output record is one of the input records unchanged). -/
theorem get_users_merge_spec (L D : List User)
    (hL : ∀ u ∈ L, u.id.isSome) (hD : ∀ u ∈ D, u.id.isSome) :
    get_users (.ok L) (.ok D) =
      some (L ++ D.filter fun d => !(L.any fun l => l.id == d.id)) ∧
    (L ++ D.filter fun d => !(L.any fun l => l.id == d.id)).length =
      L.length + (D.filter fun d => !(L.any fun l => l.id == d.id)).length ∧
    ∀ d ∈ D.filter (fun d => !(L.any fun l => l.id == d.id)),
      ∀ l ∈ L, l.id ≠ d.id := by
  obtain ⟨ids, hmap, hcont⟩ := mapM_ids_some L hL
  have hfilter : (D.filter fun d =>
      match d.id with
      | none => true
      | some uid => !ids.contains uid) =
      D.filter fun d => !(L.any fun l => l.id == d.id) := by
    apply List.filter_congr
    intro d hd
    obtain ⟨s, hs⟩ := Option.isSome_iff_exists.mp (hD d hd)
    have hca : ids.contains s = (L.any fun l => l.id == d.id) := by
      rw [Bool.eq_iff_iff, hcont s, List.any_eq_true]
      constructor
      · rintro ⟨l, hl, hls⟩
        exact ⟨l, hl, by simp [hls, hs]⟩
      · rintro ⟨l, hl, hls⟩
        rw [hs] at hls
        exact ⟨l, hl, by simpa using hls⟩
    simp only [hs, hca]
  refine ⟨?_, by simp, ?_⟩
  · unfold get_users
    simp only
    rw [hmap]
    simp only
    rw [foldlM_merge ids D L hD, hfilter]
  · intro d hd l hl
    have hp := (List.mem_filter.mp hd).2
    rw [Bool.not_eq_true'] at hp
    rw [List.any_eq_false] at hp
    have hne := hp l hl
    simpa using hne

/-- Witness for `get_users_merge_spec` at the spec's own scenario: local
store `{id="5"}`, directory `{id="5", id="7"}`. -/
theorem get_users_merge_spec_witness :
    get_users (.ok [create_test_user (some "5")])
      (.ok [create_test_user (some "5"), create_test_user (some "7")]) =
      some ([create_test_user (some "5")] ++
        ([create_test_user (some "5"), create_test_user (some "7")].filter
          fun d => !(([create_test_user (some "5")]).any fun l => l.id == d.id))) :=
  (get_users_merge_spec [create_test_user (some "5")]
    [create_test_user (some "5"), create_test_user (some "7")]
    (by decide) (by decide)).1

/-- Claim C10: `get_users` is total only when every fetched record carries
an identifier — an absent identifier in the local result, or (with all
local identifiers present) in the directory result, makes the merge panic
(`none`) instead of returning a value; and the identifier decoder does
admit the absent identifier (JSON `null`). -/
theorem get_users_absent_id_panics :
    (∀ L D : List User, (∃ u ∈ L, u.id = none) →
      get_users (.ok L) (.ok D) = none) ∧
    (∀ L D : List User, (∀ u ∈ L, u.id.isSome) → (∃ u ∈ D, u.id = none) →
      get_users (.ok L) (.ok D) = none) ∧
    deserialize_id .null = .ok none := by
  refine ⟨fun L D h => ?_, fun L D hL hD => ?_, rfl⟩
  · unfold get_users
    simp only
    rw [mapM_ids_none L h]
  · obtain ⟨ids, hmap, _⟩ := mapM_ids_some L hL
    unfold get_users
    simp only
    rw [hmap]
    simp only
    rw [foldlM_merge_none ids D L hD]

/-- Witness for `get_users_absent_id_panics` at a concrete input. -/
theorem get_users_absent_id_panics_witness :
    get_users (.ok []) (.ok [create_test_user none]) = none :=
  get_users_absent_id_panics.2.1 [] [create_test_user none]
    (by intro u hu; cases hu)
    ⟨create_test_user none, List.mem_cons_self _ _, rfl⟩
